import Mathlib

/-!
Verification of the GERDPy input-preparation core: a shallow embedding of
`src/GERDPy/heatpipes.py` (heatpipe layout inside a borehole) and
`src/GERDPy/weather_data.py` (weather-window extraction), with theorems
settling the specified behaviour of each.

Numeric cell values are embedded as rationals (Python floats are used only
for exact table values and exact arithmetic here); the trigonometric pipe
placement is embedded over the reals.
-/

namespace GERDPy

/-- Row of the weather table, with the column roles used positionally by
`get_weather_data`: column 0 month, column 1 day, column 3 precipitation,
column 4 ambient temperature, column 5 relative humidity, column 6 wind
speed, column 7 cloud cover in octants. -/
structure Row where
  month : ℚ
  day : ℚ
  precip : ℚ
  temp : ℚ
  humidity : ℚ
  wind : ℚ
  cloud : ℚ
  deriving DecidableEq

instance : Inhabited Row := ⟨⟨0, 0, 0, 0, 0, 0, 0⟩⟩

/-- Indices of all table rows whose month and day columns equal the requested
start date, in increasing order; embeds the match-index list
`data.index[(data.iloc[:, 0] == month) & (data.iloc[:, 1] == day)].tolist()`. -/
def matchIndices (t : List Row) (month day : ℚ) : List ℕ :=
  (List.range t.length).filter
    (fun i => decide ((t.getD i default).month = month ∧ (t.getD i default).day = day))

/-- Start row index. The code takes element `[0]` of the match list, an
unhandled out-of-range access when the list is empty; that failure case is
embedded as `none`. -/
def startIndex (t : List Row) (month day : ℚ) : Option ℕ :=
  (matchIndices t month day)[0]?

/-- Selected row-index list of `get_weather_data`, branching on
`start_index + Nt > len(data)` exactly as the code does. -/
def selectRows (L s Nt : ℕ) : List ℕ :=
  if s + Nt > L then
    if s ≠ 0 then List.range' s (L - s) ++ List.range s
    else List.range L
  else List.range' s Nt

/-- State visible to the snowfall-zeroing loop: the weather table and the
local snowfall array `S_w` the loop writes into. -/
structure LoopState where
  table : List Row
  S_w : List ℚ
  deriving DecidableEq

/-- Body of one iteration of the zeroing loop: `if j >= 1: S_w[i] = 0`. -/
def snowZeroStep (st : LoopState) (i : ℕ) (j : ℚ) : LoopState :=
  if 1 ≤ j then ⟨st.table, st.S_w.set i 0⟩ else st

/-- Whole zeroing loop `for i, j in enumerate(Theta_inf): if j >= 1: S_w[i] = 0`,
folding the step over the pairs produced by `enumerate`. -/
def snowZeroLoop (st : LoopState) (Theta_inf : List ℚ) : LoopState :=
  Theta_inf.enum.foldl (fun st p => snowZeroStep st p.1 p.2) st

/-- Output value object: the six series returned by `get_weather_data`,
in the order of the code (wind speed, ambient temperature, snowfall rate,
cloud fraction, relative humidity, total precipitation). -/
structure WeatherSeries where
  u_inf : List ℚ
  Theta_inf : List ℚ
  S_w : List ℚ
  B : List ℚ
  Phi : List ℚ
  RR : List ℚ
  deriving DecidableEq

/-- Per-channel derivation of `get_weather_data` over the selected row list:
each channel reads its column via `data.iloc[rows, c]`; the snowfall channel
starts as a fresh copy of the precipitation column and is then zeroed in
place by `snowZeroLoop` wherever the temperature is at least 1 °C; cloud
cover is divided by 8 and humidity by 100; total precipitation re-reads the
raw precipitation column afterwards. -/
def mkSeries (t : List Row) (rows : List ℕ) : WeatherSeries :=
  let u_inf := rows.map (fun i => (t.getD i default).wind)
  let Theta_inf := rows.map (fun i => (t.getD i default).temp)
  let S_w := (snowZeroLoop ⟨t, rows.map (fun i => (t.getD i default).precip)⟩ Theta_inf).S_w
  let B := rows.map (fun i => (t.getD i default).cloud / 8)
  let Phi := rows.map (fun i => (t.getD i default).humidity / 100)
  let RR := rows.map (fun i => (t.getD i default).precip)
  ⟨u_inf, Theta_inf, S_w, B, Phi, RR⟩

/-- Whole extraction `get_weather_data`: locate the start row from the
requested date, select the row window, derive the six channels. `none`
embeds the unhandled out-of-range failure of `tolist()[0]` on an empty
match list. -/
def get_weather_data (t : List Row) (month day : ℚ) (Nt : ℕ) : Option WeatherSeries :=
  match startIndex t month day with
  | none => none
  | some s => some (mkSeries t (selectRows t.length s Nt))

/-- Weather table left behind by a call of `get_weather_data`: the only
in-place writes of the whole extraction are the `S_w[i] = 0` assignments of
the zeroing loop, so the table afterwards is the `table` component of the
loop's final state (unchanged when the date lookup fails before the loop). -/
def tableAfter (t : List Row) (month day : ℚ) (Nt : ℕ) : List Row :=
  match startIndex t month day with
  | none => t
  | some s =>
    let rows := selectRows t.length s Nt
    (snowZeroLoop ⟨t, rows.map (fun i => (t.getD i default).precip)⟩
      (rows.map (fun i => (t.getD i default).temp))).table

/-- Truncation toward zero: the behaviour of Python `int()` on a number. -/
def ratTrunc (q : ℚ) : ℤ :=
  if 0 ≤ q then ⌊q⌋ else ⌈q⌉

/-- Heatpipe configuration; fields follow the attributes stored by
`Heatpipes.__init__`. -/
structure Heatpipes where
  N : ℤ
  r_b : ℚ
  r_w : ℚ
  r_iso_a : ℚ
  r_pa : ℚ
  r_pi : ℚ
  lambda_b : ℚ
  lambda_iso : ℚ
  lambda_p : ℚ
  deriving DecidableEq

/-- Constructor `Heatpipes.__init__`: coerces `N` with `int()` (truncation
toward zero), stores every other parameter unchanged, and performs no
validation of any kind. -/
def Heatpipes.init (N r_b r_w r_iso_a r_pa r_pi lambda_b lambda_iso lambda_p : ℚ) : Heatpipes :=
  ⟨ratTrunc N, r_b, r_w, r_iso_a, r_pa, r_pi, lambda_b, lambda_iso, lambda_p⟩

/-- Fill loop of `xy_mat` over the allocated matrix: row `i` of the result is
`(r_w * cos(2*pi*i/N), r_w * sin(2*pi*i/N))` for `i` in `range(self.N)`.
This is the behaviour of the method for every nonnegative stored count
(`np.zeros([0, 2])` and an empty loop give the empty matrix for count 0);
the allocation failure of a negative count is part of `xy_mat_run` below. -/
noncomputable def Heatpipes.xy_mat (hp : Heatpipes) : List (ℝ × ℝ) :=
  (List.range hp.N.toNat).map (fun i : ℕ =>
    ((hp.r_w : ℝ) * Real.cos (2 * Real.pi * (i : ℝ) / (hp.N : ℝ)),
     (hp.r_w : ℝ) * Real.sin (2 * Real.pi * (i : ℝ) / (hp.N : ℝ))))

/-- Whole run of the `xy_mat` method, including the allocation step
`xy_mat = np.zeros([self.N, 2])` that precedes the fill loop:
for a negative stored count, `np.zeros` raises
`ValueError: negative dimensions are not allowed` before the loop starts
(embedded as `none`); otherwise the filled matrix is returned. -/
noncomputable def Heatpipes.xy_mat_run (hp : Heatpipes) : Option (List (ℝ × ℝ)) :=
  if hp.N < 0 then none else some hp.xy_mat

/-- Modelled from the spec: the geometric ordering invariant
`radius_pipe_inner < radius_pipe_outer < radius_insulation_outer <
radius_pipe_center_circle < radius_borehole`. -/
def radiiNested (r_pi r_pa r_iso_a r_w r_b : ℚ) : Prop :=
  r_pi < r_pa ∧ r_pa < r_iso_a ∧ r_iso_a < r_w ∧ r_w < r_b

instance (r_pi r_pa r_iso_a r_w r_b : ℚ) :
    Decidable (radiiNested r_pi r_pa r_iso_a r_w r_b) := by
  unfold radiiNested
  infer_instance

/-- Modelled from the spec: the checked constructor the spec describes, which
surfaces `InvalidConfigurationError` at construction time when the radii are
not strictly nested or the count is negative, and otherwise builds the
configuration exactly as the code's constructor does. The source constructor
contains no such check. -/
def Heatpipes.initChecked (N r_b r_w r_iso_a r_pa r_pi lambda_b lambda_iso lambda_p : ℚ) :
    Except String Heatpipes :=
  if radiiNested r_pi r_pa r_iso_a r_w r_b ∧ 0 ≤ ratTrunc N then
    Except.ok (Heatpipes.init N r_b r_w r_iso_a r_pa r_pi lambda_b lambda_iso lambda_p)
  else
    Except.error "InvalidConfigurationError"

/-- C1: with a found start index `s < L` and positive step count `Nt`, the
selected rows are the contiguous indices `[s, s+Nt)` of length `Nt` when
`s + Nt ≤ L`; the wrap-around list `[s, L) ++ [0, s)` of length `L` (the
full table length, not `Nt`) when `s + Nt > L` and `s ≠ 0`; and all of
`[0, L)` in original order, of length `L`, when `s = 0` and `Nt > L`. -/
theorem selectRows_spec (L s Nt : ℕ) (hNt : 0 < Nt) (hs : s < L) :
    (s + Nt ≤ L →
      selectRows L s Nt = List.range' s Nt ∧ (selectRows L s Nt).length = Nt) ∧
    (L < s + Nt → s ≠ 0 →
      selectRows L s Nt = List.range' s (L - s) ++ List.range s ∧
      (selectRows L s Nt).length = L) ∧
    (L < s + Nt → s = 0 →
      selectRows L s Nt = List.range L ∧ (selectRows L s Nt).length = L) := by
  unfold selectRows
  refine ⟨fun h => ?_, fun h h0 => ?_, fun h h0 => ?_⟩
  · rw [if_neg (by omega)]
    exact ⟨rfl, by simp⟩
  · rw [if_pos (by omega), if_pos h0]
    refine ⟨rfl, ?_⟩
    simp only [List.length_append, List.length_range', List.length_range]
    omega
  · rw [if_pos (by omega), if_neg (by simp [h0])]
    exact ⟨rfl, by simp⟩

/-- C1 witness: the wrap-around example of the spec, a table of length 100
with start index 95 and 10 requested steps. -/
theorem selectRows_spec_w :
    (95 + 10 ≤ 100 →
      selectRows 100 95 10 = List.range' 95 10 ∧ (selectRows 100 95 10).length = 10) ∧
    (100 < 95 + 10 → 95 ≠ 0 →
      selectRows 100 95 10 = List.range' 95 (100 - 95) ++ List.range 95 ∧
      (selectRows 100 95 10).length = 100) ∧
    (100 < 95 + 10 → 95 = 0 →
      selectRows 100 95 10 = List.range 100 ∧ (selectRows 100 95 10).length = 100) :=
  selectRows_spec 100 95 10 (by decide) (by decide)

/-- Folding the zeroing step over any index-value pair list never changes the
table component of the state. -/
theorem snowZeroFold_table (l : List (ℕ × ℚ)) :
    ∀ st : LoopState, (l.foldl (fun st p => snowZeroStep st p.1 p.2) st).table = st.table := by
  induction l with
  | nil => intro st; rfl
  | cons p l ih =>
    intro st
    have hstep : (snowZeroStep st p.1 p.2).table = st.table := by
      unfold snowZeroStep
      split <;> rfl
    rw [List.foldl_cons, ih, hstep]

/-- The snowfall component of the folded state is the plain list fold of the
conditional in-place writes. -/
theorem snowZeroFold_S_w (l : List (ℕ × ℚ)) :
    ∀ st : LoopState, (l.foldl (fun st p => snowZeroStep st p.1 p.2) st).S_w =
      l.foldl (fun sw p => if 1 ≤ p.2 then sw.set p.1 0 else sw) st.S_w := by
  induction l with
  | nil => intro st; rfl
  | cons p l ih =>
    intro st
    have hstep : (snowZeroStep st p.1 p.2).S_w =
        if 1 ≤ p.2 then st.S_w.set p.1 0 else st.S_w := by
      unfold snowZeroStep
      split <;> rfl
    rw [List.foldl_cons, List.foldl_cons, ih, hstep]

/-- Writing at the index right after a prefix replaces the head of the
suffix. -/
theorem set_append_cons (pre : List ℚ) (a b : ℚ) (l : List ℚ) :
    (pre ++ a :: l).set pre.length b = pre ++ b :: l := by
  induction pre with
  | nil => rfl
  | cons x pre ih => simp [List.set_cons_succ, ih]

/-- The zeroing loop, started after an untouched prefix, rewrites the suffix
to the row-wise conditional override of the snowfall copy by the
temperatures. -/
theorem snowZeroList_eq_zipWith (Theta : List ℚ) :
    ∀ pre sw : List ℚ, sw.length = Theta.length →
      (Theta.enumFrom pre.length).foldl
          (fun sw p => if 1 ≤ p.2 then sw.set p.1 0 else sw) (pre ++ sw) =
        pre ++ List.zipWith (fun a j => if 1 ≤ j then 0 else a) sw Theta := by
  induction Theta with
  | nil =>
    intro pre sw h
    rw [List.length_eq_zero.mp h]
    rfl
  | cons j Theta ih =>
    intro pre sw h
    cases sw with
    | nil => simp at h
    | cons a sw =>
      rw [List.enumFrom_cons, List.foldl_cons]
      have hset : (if 1 ≤ (pre.length, j).2 then
            (pre ++ a :: sw).set (pre.length, j).1 0 else pre ++ a :: sw)
          = (pre ++ [if 1 ≤ j then (0:ℚ) else a]) ++ sw := by
        simp only []
        split
        · rw [set_append_cons]
          simp
        · simp
      rw [hset]
      have hlen : pre.length + 1 = (pre ++ [if 1 ≤ j then (0:ℚ) else a]).length := by
        simp
      rw [hlen, ih (pre ++ [if 1 ≤ j then (0:ℚ) else a]) sw (by simpa using h)]
      simp

/-- The zeroing loop never changes the weather table. -/
theorem snowZeroLoop_table (st : LoopState) (Theta : List ℚ) :
    (snowZeroLoop st Theta).table = st.table := by
  unfold snowZeroLoop
  rw [snowZeroFold_table]

/-- Characterization of the zeroing loop on arrays of the selected-window
length: entry `i` of the result is `0` where the temperature is at least 1
and the raw snowfall copy elsewhere. -/
theorem snowZeroLoop_S_w (t : List Row) (sw Theta : List ℚ) (h : sw.length = Theta.length) :
    (snowZeroLoop ⟨t, sw⟩ Theta).S_w =
      List.zipWith (fun a j => if 1 ≤ j then 0 else a) sw Theta := by
  unfold snowZeroLoop
  rw [snowZeroFold_S_w]
  have h0 : Theta.enum = Theta.enumFrom ([] : List ℚ).length := rfl
  have := snowZeroList_eq_zipWith Theta [] sw h
  rw [h0]
  simpa using this

/-- Snowfall channel of `mkSeries` as a row-wise map over the selected rows. -/
theorem mkSeries_S_w (t : List Row) (rows : List ℕ) :
    (mkSeries t rows).S_w = rows.map (fun i =>
      if 1 ≤ (t.getD i default).temp then 0 else (t.getD i default).precip) := by
  simp only [mkSeries]
  rw [snowZeroLoop_S_w t _ _ (by simp), List.zipWith_map, List.zipWith_same]

/-- Reading position `i` of a mapped list under the code's defaulted indexing
equals the function at the defaulted source entry, for in-range `i`. -/
theorem getD_map_lt (f : ℕ → ℚ) (l : List ℕ) (i : ℕ) (h : i < l.length) :
    (l.map f).getD i 0 = f (l.getD i 0) := by
  have hl : l[i]? = some l[i] := List.getElem?_eq_getElem h
  simp [List.getD_eq_getElem?_getD, List.getElem?_map, hl]

/-- C2: at every selected row, the snowfall rate is the raw
precipitation-column value zeroed exactly where the ambient temperature is at
least 1 °C, while the total precipitation always keeps the raw value: so the
two agree below 1 °C and the snowfall rate is 0 from 1 °C upward. -/
theorem snowfall_zeroing (t : List Row) (rows : List ℕ) (i : ℕ) (h : i < rows.length) :
    (mkSeries t rows).Theta_inf.getD i 0 = (t.getD (rows.getD i 0) default).temp ∧
    (mkSeries t rows).RR.getD i 0 = (t.getD (rows.getD i 0) default).precip ∧
    (1 ≤ (t.getD (rows.getD i 0) default).temp → (mkSeries t rows).S_w.getD i 0 = 0) ∧
    ((t.getD (rows.getD i 0) default).temp < 1 →
      (mkSeries t rows).S_w.getD i 0 = (mkSeries t rows).RR.getD i 0) := by
  have hTheta : (mkSeries t rows).Theta_inf = rows.map (fun k => (t.getD k default).temp) := by
    simp only [mkSeries]
  have hRR : (mkSeries t rows).RR = rows.map (fun k => (t.getD k default).precip) := by
    simp only [mkSeries]
  rw [hTheta, hRR, mkSeries_S_w, getD_map_lt _ _ _ h, getD_map_lt _ _ _ h,
    getD_map_lt _ _ _ h]
  refine ⟨rfl, rfl, fun hT => ?_, fun hT => ?_⟩
  · rw [if_pos hT]
  · rw [if_neg (not_le.mpr hT)]

/-- C2 witness: a one-row table with temperature 2 °C, where the snowfall
rate is zeroed but the total precipitation keeps the raw value 5. -/
theorem snowfall_zeroing_w :
    (mkSeries [(⟨1, 1, 5, 2, 80, 6, 8⟩ : Row)] [0]).Theta_inf.getD 0 0 =
      (([(⟨1, 1, 5, 2, 80, 6, 8⟩ : Row)].getD ([0].getD 0 0) default)).temp ∧
    (mkSeries [(⟨1, 1, 5, 2, 80, 6, 8⟩ : Row)] [0]).RR.getD 0 0 =
      (([(⟨1, 1, 5, 2, 80, 6, 8⟩ : Row)].getD ([0].getD 0 0) default)).precip ∧
    (1 ≤ (([(⟨1, 1, 5, 2, 80, 6, 8⟩ : Row)].getD ([0].getD 0 0) default)).temp →
      (mkSeries [(⟨1, 1, 5, 2, 80, 6, 8⟩ : Row)] [0]).S_w.getD 0 0 = 0) ∧
    ((([(⟨1, 1, 5, 2, 80, 6, 8⟩ : Row)].getD ([0].getD 0 0) default)).temp < 1 →
      (mkSeries [(⟨1, 1, 5, 2, 80, 6, 8⟩ : Row)] [0]).S_w.getD 0 0 =
        (mkSeries [(⟨1, 1, 5, 2, 80, 6, 8⟩ : Row)] [0]).RR.getD 0 0) :=
  snowfall_zeroing [⟨1, 1, 5, 2, 80, 6, 8⟩] [0] 0 (by decide)

/-- C6: at every selected row, the cloud fraction is the raw cloud-octant
value divided by 8 and the relative humidity is the raw humidity value
divided by 100, and both land in `[0, 1]` whenever the raw values lie in
`[0, 8]` and `[0, 100]` respectively. -/
theorem unit_normalization (t : List Row) (rows : List ℕ) (i : ℕ) (h : i < rows.length) :
    (mkSeries t rows).B.getD i 0 = (t.getD (rows.getD i 0) default).cloud / 8 ∧
    (mkSeries t rows).Phi.getD i 0 = (t.getD (rows.getD i 0) default).humidity / 100 ∧
    (0 ≤ (t.getD (rows.getD i 0) default).cloud →
      (t.getD (rows.getD i 0) default).cloud ≤ 8 →
      0 ≤ (mkSeries t rows).B.getD i 0 ∧ (mkSeries t rows).B.getD i 0 ≤ 1) ∧
    (0 ≤ (t.getD (rows.getD i 0) default).humidity →
      (t.getD (rows.getD i 0) default).humidity ≤ 100 →
      0 ≤ (mkSeries t rows).Phi.getD i 0 ∧ (mkSeries t rows).Phi.getD i 0 ≤ 1) := by
  have hB : (mkSeries t rows).B = rows.map (fun k => (t.getD k default).cloud / 8) := by
    simp only [mkSeries]
  have hPhi : (mkSeries t rows).Phi =
      rows.map (fun k => (t.getD k default).humidity / 100) := by
    simp only [mkSeries]
  rw [hB, hPhi, getD_map_lt _ _ _ h, getD_map_lt _ _ _ h]
  refine ⟨rfl, rfl, fun h0 h8 => ⟨?_, ?_⟩, fun h0 h100 => ⟨?_, ?_⟩⟩
  · exact div_nonneg h0 (by norm_num)
  · exact (div_le_one (by norm_num)).mpr h8
  · exact div_nonneg h0 (by norm_num)
  · exact (div_le_one (by norm_num)).mpr h100

/-- C6 witness: a one-row table with cloud cover 8 octants and humidity 80
percent. -/
theorem unit_normalization_w :
    (mkSeries [(⟨1, 1, 5, 2, 80, 6, 8⟩ : Row)] [0]).B.getD 0 0 =
      (([(⟨1, 1, 5, 2, 80, 6, 8⟩ : Row)].getD ([0].getD 0 0) default)).cloud / 8 ∧
    (mkSeries [(⟨1, 1, 5, 2, 80, 6, 8⟩ : Row)] [0]).Phi.getD 0 0 =
      (([(⟨1, 1, 5, 2, 80, 6, 8⟩ : Row)].getD ([0].getD 0 0) default)).humidity / 100 ∧
    (0 ≤ (([(⟨1, 1, 5, 2, 80, 6, 8⟩ : Row)].getD ([0].getD 0 0) default)).cloud →
      (([(⟨1, 1, 5, 2, 80, 6, 8⟩ : Row)].getD ([0].getD 0 0) default)).cloud ≤ 8 →
      0 ≤ (mkSeries [(⟨1, 1, 5, 2, 80, 6, 8⟩ : Row)] [0]).B.getD 0 0 ∧
        (mkSeries [(⟨1, 1, 5, 2, 80, 6, 8⟩ : Row)] [0]).B.getD 0 0 ≤ 1) ∧
    (0 ≤ (([(⟨1, 1, 5, 2, 80, 6, 8⟩ : Row)].getD ([0].getD 0 0) default)).humidity →
      (([(⟨1, 1, 5, 2, 80, 6, 8⟩ : Row)].getD ([0].getD 0 0) default)).humidity ≤ 100 →
      0 ≤ (mkSeries [(⟨1, 1, 5, 2, 80, 6, 8⟩ : Row)] [0]).Phi.getD 0 0 ∧
        (mkSeries [(⟨1, 1, 5, 2, 80, 6, 8⟩ : Row)] [0]).Phi.getD 0 0 ≤ 1) :=
  unit_normalization [⟨1, 1, 5, 2, 80, 6, 8⟩] [0] 0 (by decide)

/-- C7: whenever the extraction succeeds, the six returned series all have
the same length, namely the length of the selected row-index list. -/
theorem series_lengths (t : List Row) (month day : ℚ) (Nt : ℕ) (ws : WeatherSeries)
    (h : get_weather_data t month day Nt = some ws) :
    ∃ s, startIndex t month day = some s ∧
      ws.u_inf.length = (selectRows t.length s Nt).length ∧
      ws.Theta_inf.length = (selectRows t.length s Nt).length ∧
      ws.S_w.length = (selectRows t.length s Nt).length ∧
      ws.B.length = (selectRows t.length s Nt).length ∧
      ws.Phi.length = (selectRows t.length s Nt).length ∧
      ws.RR.length = (selectRows t.length s Nt).length := by
  unfold get_weather_data at h
  cases hs : startIndex t month day with
  | none => rw [hs] at h; exact absurd h (by simp)
  | some s =>
    rw [hs] at h
    have hws : ws = mkSeries t (selectRows t.length s Nt) := by
      injection h with h2
      exact h2.symm
    subst hws
    exact ⟨s, rfl, by simp [mkSeries], by simp [mkSeries],
      by rw [mkSeries_S_w]; simp, by simp [mkSeries], by simp [mkSeries],
      by simp [mkSeries]⟩

/-- C7 witness: a one-row table, start date (1, 1), one requested step. -/
theorem series_lengths_w :
    ∃ s, startIndex [(⟨1, 1, 5, 2, 80, 6, 8⟩ : Row)] 1 1 = some s ∧
      (WeatherSeries.mk [6] [2] [0] [8 / 8] [80 / 100] [5]).u_inf.length =
        (selectRows [(⟨1, 1, 5, 2, 80, 6, 8⟩ : Row)].length s 1).length ∧
      (WeatherSeries.mk [6] [2] [0] [8 / 8] [80 / 100] [5]).Theta_inf.length =
        (selectRows [(⟨1, 1, 5, 2, 80, 6, 8⟩ : Row)].length s 1).length ∧
      (WeatherSeries.mk [6] [2] [0] [8 / 8] [80 / 100] [5]).S_w.length =
        (selectRows [(⟨1, 1, 5, 2, 80, 6, 8⟩ : Row)].length s 1).length ∧
      (WeatherSeries.mk [6] [2] [0] [8 / 8] [80 / 100] [5]).B.length =
        (selectRows [(⟨1, 1, 5, 2, 80, 6, 8⟩ : Row)].length s 1).length ∧
      (WeatherSeries.mk [6] [2] [0] [8 / 8] [80 / 100] [5]).Phi.length =
        (selectRows [(⟨1, 1, 5, 2, 80, 6, 8⟩ : Row)].length s 1).length ∧
      (WeatherSeries.mk [6] [2] [0] [8 / 8] [80 / 100] [5]).RR.length =
        (selectRows [(⟨1, 1, 5, 2, 80, 6, 8⟩ : Row)].length s 1).length :=
  series_lengths [⟨1, 1, 5, 2, 80, 6, 8⟩] 1 1 1 (WeatherSeries.mk [6] [2] [0] [8 / 8] [80 / 100] [5]) rfl

/-- C8: a call of the extraction never mutates the weather table: the only
in-place writes are the zeroing assignments, and they hit the derived
snowfall copy, so the table left behind is the input table. -/
theorem table_unchanged (t : List Row) (month day : ℚ) (Nt : ℕ) :
    tableAfter t month day Nt = t := by
  unfold tableAfter
  cases hs : startIndex t month day with
  | none => rfl
  | some s => simp [snowZeroLoop_table]

/-- C4: requesting a date absent from the table leaves the match list empty,
so the code's `tolist()[0]` is an out-of-range access (embedded as `none`)
rather than the explicit `NotFoundError` the spec requires. -/
theorem missing_date_unhandled :
    matchIndices [(⟨1, 1, 0, 0, 0, 0, 0⟩ : Row)] 2 30 = [] ∧
    startIndex [(⟨1, 1, 0, 0, 0, 0, 0⟩ : Row)] 2 30 = none ∧
    get_weather_data [(⟨1, 1, 0, 0, 0, 0, 0⟩ : Row)] 2 30 5 = none := by
  decide

/-- Length of the pipe-centre list: `range(self.N)` yields `N` iterations
for a nonnegative stored count and none otherwise. -/
theorem xy_mat_length (hp : Heatpipes) : hp.xy_mat.length = hp.N.toNat := by
  unfold Heatpipes.xy_mat
  rw [List.length_map, List.length_range]

/-- C3: for a positive stored count and a nonnegative centre-circle radius,
`xy_mat` returns exactly `N` pairs, pair `i` being
`(r_w * cos(2*pi*i/N), r_w * sin(2*pi*i/N))`, each at Euclidean distance
`r_w` from the origin; for `N = 1` the single point is `(r_w, 0)`. -/
theorem xy_mat_spec (hp : Heatpipes) (hN : 1 ≤ hp.N) (hr : 0 ≤ hp.r_w) :
    hp.xy_mat.length = hp.N.toNat ∧
    (∀ i : ℕ, i < hp.N.toNat →
      hp.xy_mat.getD i (0, 0) =
        ((hp.r_w : ℝ) * Real.cos (2 * Real.pi * i / (hp.N : ℝ)),
         (hp.r_w : ℝ) * Real.sin (2 * Real.pi * i / (hp.N : ℝ))) ∧
      Real.sqrt ((hp.xy_mat.getD i (0, 0)).1 ^ 2 + (hp.xy_mat.getD i (0, 0)).2 ^ 2)
        = (hp.r_w : ℝ)) ∧
    (hp.N = 1 → hp.xy_mat = [((hp.r_w : ℝ), 0)]) := by
  refine ⟨xy_mat_length hp, fun i hi => ?_, fun h1 => ?_⟩
  · have hget : hp.xy_mat.getD i (0, 0) =
        ((hp.r_w : ℝ) * Real.cos (2 * Real.pi * i / (hp.N : ℝ)),
         (hp.r_w : ℝ) * Real.sin (2 * Real.pi * i / (hp.N : ℝ))) := by
      unfold Heatpipes.xy_mat
      simp only [List.getD_eq_getElem?_getD, List.getElem?_map, List.getElem?_range hi,
        Option.map_some', Option.getD_some]
    refine ⟨hget, ?_⟩
    rw [hget]
    have hkey : ((hp.r_w : ℝ) * Real.cos (2 * Real.pi * i / (hp.N : ℝ))) ^ 2 +
        ((hp.r_w : ℝ) * Real.sin (2 * Real.pi * i / (hp.N : ℝ))) ^ 2 = ((hp.r_w : ℝ)) ^ 2 := by
      have hpyth := Real.sin_sq_add_cos_sq (2 * Real.pi * i / (hp.N : ℝ))
      nlinarith [hpyth]
    rw [show ((((hp.r_w : ℝ) * Real.cos (2 * Real.pi * i / (hp.N : ℝ)),
        (hp.r_w : ℝ) * Real.sin (2 * Real.pi * i / (hp.N : ℝ))) : ℝ × ℝ).1) =
        (hp.r_w : ℝ) * Real.cos (2 * Real.pi * i / (hp.N : ℝ)) from rfl]
    rw [show ((((hp.r_w : ℝ) * Real.cos (2 * Real.pi * i / (hp.N : ℝ)),
        (hp.r_w : ℝ) * Real.sin (2 * Real.pi * i / (hp.N : ℝ))) : ℝ × ℝ).2) =
        (hp.r_w : ℝ) * Real.sin (2 * Real.pi * i / (hp.N : ℝ)) from rfl]
    rw [hkey, Real.sqrt_sq (by exact_mod_cast hr)]
  · unfold Heatpipes.xy_mat
    rw [h1]
    norm_num [show List.range 1 = [0] from rfl, Real.cos_zero, Real.sin_zero]

/-- C3 witness: a single pipe on a circle of radius 2. -/
theorem xy_mat_spec_w :
    (Heatpipes.xy_mat ⟨1, 5, 2, 1, 1, 1, 1, 1, 1⟩).length =
      (⟨1, 5, 2, 1, 1, 1, 1, 1, 1⟩ : Heatpipes).N.toNat ∧
    (∀ i : ℕ, i < (⟨1, 5, 2, 1, 1, 1, 1, 1, 1⟩ : Heatpipes).N.toNat →
      (Heatpipes.xy_mat ⟨1, 5, 2, 1, 1, 1, 1, 1, 1⟩).getD i (0, 0) =
        (((⟨1, 5, 2, 1, 1, 1, 1, 1, 1⟩ : Heatpipes).r_w : ℝ) *
            Real.cos (2 * Real.pi * i / ((⟨1, 5, 2, 1, 1, 1, 1, 1, 1⟩ : Heatpipes).N : ℝ)),
         ((⟨1, 5, 2, 1, 1, 1, 1, 1, 1⟩ : Heatpipes).r_w : ℝ) *
            Real.sin (2 * Real.pi * i / ((⟨1, 5, 2, 1, 1, 1, 1, 1, 1⟩ : Heatpipes).N : ℝ))) ∧
      Real.sqrt (((Heatpipes.xy_mat ⟨1, 5, 2, 1, 1, 1, 1, 1, 1⟩).getD i (0, 0)).1 ^ 2 +
          ((Heatpipes.xy_mat ⟨1, 5, 2, 1, 1, 1, 1, 1, 1⟩).getD i (0, 0)).2 ^ 2)
        = (((⟨1, 5, 2, 1, 1, 1, 1, 1, 1⟩ : Heatpipes).r_w : ℝ))) ∧
    ((⟨1, 5, 2, 1, 1, 1, 1, 1, 1⟩ : Heatpipes).N = 1 →
      Heatpipes.xy_mat ⟨1, 5, 2, 1, 1, 1, 1, 1, 1⟩ =
        [(((⟨1, 5, 2, 1, 1, 1, 1, 1, 1⟩ : Heatpipes).r_w : ℝ), 0)]) :=
  xy_mat_spec ⟨1, 5, 2, 1, 1, 1, 1, 1, 1⟩ (by decide) (by decide)

/-- C9: a zero pipe count yields an empty coordinate list, with no failure. -/
theorem xy_mat_zero_count (hp : Heatpipes) (h : hp.N = 0) : hp.xy_mat = [] := by
  unfold Heatpipes.xy_mat
  rw [h]
  rfl

/-- C9 witness: the degenerate configuration with zero pipes. -/
theorem xy_mat_zero_count_w : Heatpipes.xy_mat ⟨0, 1, 1, 1, 1, 1, 1, 1, 1⟩ = [] :=
  xy_mat_zero_count ⟨0, 1, 1, 1, 1, 1, 1, 1, 1⟩ rfl

/-- C5 counterexample: a configuration with reversed radii and a negative
count. The spec-modelled checked constructor rejects it, but the code's
constructor succeeds and returns a configuration value, so construction does
not raise `InvalidConfigurationError`. -/
theorem init_unvalidated_cex :
    Heatpipes.initChecked (-1) 1 2 3 4 5 1 1 1 = Except.error "InvalidConfigurationError" ∧
    Heatpipes.init (-1) 1 2 3 4 5 1 1 1 = ⟨-1, 1, 2, 3, 4, 5, 1, 1, 1⟩ ∧
    Heatpipes.initChecked (-1) 1 2 3 4 5 1 1 1 ≠
      Except.ok (Heatpipes.init (-1) 1 2 3 4 5 1 1 1) := by
  refine ⟨rfl, rfl, fun hcontra => ?_⟩
  rw [show Heatpipes.initChecked (-1) 1 2 3 4 5 1 1 1 =
      Except.error "InvalidConfigurationError" from rfl] at hcontra
  exact Except.noConfusion hcontra

/-- C5 amended: the code's constructor performs no validation at all. On any
configuration rejected by the spec's invariant (radii not strictly nested or
negative count) the spec-modelled checked constructor reports
`InvalidConfigurationError`, while the code's constructor still returns the
configuration with the count truncated and all other parameters stored
unchanged. -/
theorem init_no_validation (N r_b r_w r_iso_a r_pa r_pi lambda_b lambda_iso lambda_p : ℚ)
    (h : ¬ (radiiNested r_pi r_pa r_iso_a r_w r_b ∧ 0 ≤ ratTrunc N)) :
    Heatpipes.initChecked N r_b r_w r_iso_a r_pa r_pi lambda_b lambda_iso lambda_p =
      Except.error "InvalidConfigurationError" ∧
    Heatpipes.init N r_b r_w r_iso_a r_pa r_pi lambda_b lambda_iso lambda_p =
      ⟨ratTrunc N, r_b, r_w, r_iso_a, r_pa, r_pi, lambda_b, lambda_iso, lambda_p⟩ := by
  refine ⟨?_, rfl⟩
  unfold Heatpipes.initChecked
  rw [if_neg h]

/-- C5 amended witness: the reversed-radii, negative-count configuration. -/
theorem init_no_validation_w :
    Heatpipes.initChecked (-2) 1 2 3 4 5 1 1 1 = Except.error "InvalidConfigurationError" ∧
    Heatpipes.init (-2) 1 2 3 4 5 1 1 1 =
      ⟨ratTrunc (-2), 1, 2, 3, 4, 5, 1, 1, 1⟩ :=
  init_no_validation (-2) 1 2 3 4 5 1 1 1 (by decide)

/-- C10 counterexample: for `N = -1` the stored count is `-1`, but running
`xy_mat` does not return `trunc(N)` points (nor any points): the allocation
`np.zeros([-1, 2])` raises `ValueError` before the fill loop. -/
theorem trunc_count_cex :
    (Heatpipes.init (-1) 1 1 1 1 1 1 1 1).N = -1 ∧
    Heatpipes.xy_mat_run (Heatpipes.init (-1) 1 1 1 1 1 1 1 1) = none := by
  refine ⟨by decide, ?_⟩
  unfold Heatpipes.xy_mat_run
  rw [if_pos (by decide)]

/-- C10 amended: the constructor coerces the count by truncation toward zero,
so the stored count is `trunc(N)` for every numeric `N`; running `xy_mat`
then returns exactly `trunc(N)` points whenever the truncated count is
nonnegative (so a fractional `N = 2.9` silently yields 2 pipes), and for a
negative truncated count it raises `ValueError` from the
`np.zeros([self.N, 2])` allocation instead of returning points. -/
theorem init_count_trunc (N r_b r_w r_iso_a r_pa r_pi lambda_b lambda_iso lambda_p : ℚ) :
    (Heatpipes.init N r_b r_w r_iso_a r_pa r_pi lambda_b lambda_iso lambda_p).N = ratTrunc N ∧
    (0 ≤ ratTrunc N →
      Heatpipes.xy_mat_run
          (Heatpipes.init N r_b r_w r_iso_a r_pa r_pi lambda_b lambda_iso lambda_p) =
        some (Heatpipes.init N r_b r_w r_iso_a r_pa r_pi lambda_b lambda_iso lambda_p).xy_mat ∧
      (Heatpipes.init N r_b r_w r_iso_a r_pa r_pi lambda_b lambda_iso lambda_p).xy_mat.length =
        (ratTrunc N).toNat) ∧
    (ratTrunc N < 0 →
      Heatpipes.xy_mat_run
          (Heatpipes.init N r_b r_w r_iso_a r_pa r_pi lambda_b lambda_iso lambda_p) = none) := by
  have hN : (Heatpipes.init N r_b r_w r_iso_a r_pa r_pi lambda_b lambda_iso lambda_p).N =
      ratTrunc N := rfl
  refine ⟨rfl, fun h => ⟨?_, ?_⟩, fun h => ?_⟩
  · unfold Heatpipes.xy_mat_run
    rw [hN, if_neg (not_lt.mpr h)]
  · rw [xy_mat_length]
    rfl
  · unfold Heatpipes.xy_mat_run
    rw [hN, if_pos h]

/-- C10 amended witness: a configuration with count 3, where the allocation
succeeds and the fill loop produces the 3 stored points. -/
theorem init_count_trunc_w :
    (Heatpipes.init 3 1 1 1 1 1 1 1 1).N = ratTrunc 3 ∧
    (0 ≤ ratTrunc 3 →
      Heatpipes.xy_mat_run (Heatpipes.init 3 1 1 1 1 1 1 1 1) =
        some (Heatpipes.init 3 1 1 1 1 1 1 1 1).xy_mat ∧
      (Heatpipes.init 3 1 1 1 1 1 1 1 1).xy_mat.length = (ratTrunc 3).toNat) ∧
    (ratTrunc 3 < 0 →
      Heatpipes.xy_mat_run (Heatpipes.init 3 1 1 1 1 1 1 1 1) = none) :=
  init_count_trunc 3 1 1 1 1 1 1 1 1

end GERDPy
